import Mathlib

/-!
Verification of the filter-and-geocode pipeline of `src/app.py`
(cocoa supply-chain map dashboard).

The embedding mirrors the source line by line:
* pandas string cells are `Option String` (a missing cell is `none`);
  `astype(str)` stringifies a missing cell to the literal text `nan`;
* numeric cells are `Option ℚ` (pandas `NaN` is `none`);
* a dataframe is a `List Row`;
* the geocode cache (`geo_cache` / `cache_map`, app.py lines 60-63) is an
  association list `place → (Latitude?, Longitude?)`; a tombstone is an
  entry whose two coordinates are both `none`.

Python string primitives used by app.py (`str.strip`, the regex
`^,\s*|,\s*$` of line 57) are modelled on `List Char`, the character
sequence of the string.
-/

namespace MapApp

/-- `Char.isWhitespace`, the model of a regex `\s` character and of the
characters removed by `str.strip()`. -/
def is_ws (c : Char) : Bool := c.isWhitespace

/-- Python `str.strip()`: drop leading and trailing whitespace. -/
def trim_chars (l : List Char) : List Char :=
  ((l.dropWhile is_ws).reverse.dropWhile is_ws).reverse

/-- pandas `.astype(str)` on one cell: a missing value (`NaN`) becomes the
literal three-character text `nan`; a present string is kept. -/
def pandas_str : Option (List Char) → List Char
  | none => ['n', 'a', 'n']
  | some l => l

/-- The leading alternative `^,\s*` of the regex of app.py line 57: when the
string starts with a comma, that comma and the whitespace after it are
removed. -/
def strip_lead_comma (l : List Char) : List Char :=
  if l.headD ' ' = ',' then l.tail.dropWhile is_ws else l

/-- The trailing alternative `,\s*$` of the regex of app.py line 57: when the
string ends in a comma followed only by whitespace, that comma and the
whitespace are removed. -/
def strip_trail_comma (l : List Char) : List Char :=
  if (l.reverse.dropWhile is_ws).headD ' ' = ',' then
    (l.reverse.dropWhile is_ws).tail.reverse
  else l

/-- app.py lines 55-57: `place_key` is
`(City.astype(str).strip() + ", " + Country.astype(str).strip())` with the
regex `^,\s*|,\s*$` replaced by the empty string (the leading match is
removed first, the scan then continues to the trailing one). -/
def place_key_chars (city country : Option (List Char)) : List Char :=
  strip_trail_comma (strip_lead_comma
    (trim_chars (pandas_str city) ++ [',', ' '] ++ trim_chars (pandas_str country)))

/-- Modelled from the spec's words (claim C7, spec section 3): the PlaceKey is
"derived deterministically from a record's city/country (trimmed, empty
components omitted, comma separators collapsed)"; a missing component is
treated as empty and omitted. This definition exists only to be compared
with `place_key_chars`, the definition taken from the source. -/
def spec_place_key (city country : Option (List Char)) : List Char :=
  let c := trim_chars (city.getD [])
  let k := trim_chars (country.getD [])
  if c = [] then k else if k = [] then c else c ++ [',', ' '] ++ k

/-- One row of the working dataframe after app.py lines 38-63 (Customer
normalized to Yes/No, City/Country stringified and stripped, `place_key`
built, coordinates attached from the cache).  `Company` and `Role` are never
touched by the source, so a missing value stays missing (`none`);
`Country`, `City` and `Customer` are plain strings by lines 55-56 and 38-51.
`volume_raw` is the raw `Volume (tons/year)` cell and `volume` the numeric
column that line 117 overwrites it with. -/
structure Row where
  company : Option String
  role : Option String
  country : String
  city : String
  place_key : String
  customer : String
  volume_raw : Option String
  volume : Option ℚ
  lat : Option ℚ
  lon : Option ℚ
deriving DecidableEq

/-- The sidebar state read by the filter block, app.py lines 119-143. -/
structure Criteria where
  selected_roles : List String
  selected_countries : List String
  selected_companies : List String
  customer_choice : String
  volume_threshold : ℚ
deriving DecidableEq

/-- pandas `Series.isin(values)` on one cell of an optionally-missing string
column: a missing cell (`NaN`) is in no list of strings. -/
def opt_mem (o : Option String) (l : List String) : Bool :=
  match o with
  | some s => decide (s ∈ l)
  | none => false

/-- app.py lines 123/129/135: the effective selection of one multiselect,
`available if "All" in selected or not selected else selected`. -/
def effective (selected available : List String) : List String :=
  if "All" ∈ selected ∨ selected = [] then available else selected

/-- app.py line 120: `sorted(df["Role"].dropna().unique())`.  Only membership
in this list is used downstream (`isin`), so the sort is dropped and
`unique` is `dedup`. -/
def available_roles (df : List Row) : List String :=
  (df.filterMap Row.role).dedup

/-- app.py line 126: `sorted(df["Country"].dropna().unique())`; the Country
column was stringified at line 56, so `dropna` removes nothing. -/
def available_countries (df : List Row) : List String :=
  (df.map Row.country).dedup

/-- app.py line 132: `sorted(df["Company"].dropna().unique())`. -/
def available_companies (df : List Row) : List String :=
  (df.filterMap Row.company).dedup

/-- app.py line 150, the volume conjunct:
`Volume.isna() | (Volume >= volume_threshold)`. -/
def volume_pass (v : Option ℚ) (t : ℚ) : Bool :=
  match v with
  | none => true
  | some x => decide (t ≤ x)

/-- The row predicate of the boolean mask of app.py lines 146-151. -/
def row_pass (df : List Row) (c : Criteria) (r : Row) : Bool :=
  opt_mem r.role (effective c.selected_roles (available_roles df)) &&
  decide (r.country ∈ effective c.selected_countries (available_countries df)) &&
  opt_mem r.company (effective c.selected_companies (available_companies df)) &&
  volume_pass r.volume c.volume_threshold

/-- app.py lines 146-155: `filtered_df` is the mask of lines 146-151 followed
by the Customer stage of lines 154-155
(`if customer_choice != "All": filtered_df = filtered_df[Customer == choice]`). -/
def filtered_df (df : List Row) (c : Criteria) : List Row :=
  let base := df.filter (row_pass df c)
  if c.customer_choice = "All" then base
  else base.filter (fun r => decide (r.customer = c.customer_choice))

/-- Modelled from the spec's words (claim C2, spec section 4.3): a record
passes iff role, country and company each match their selection or that
selection is unrestricted (`"All"` selected or nothing selected), the volume
is absent or at least the threshold, and the customer choice is `All` or
matches.  This definition exists only to be compared with `filtered_df`,
the definition taken from the source. -/
def spec_unrestricted (sel : List String) : Bool :=
  decide ("All" ∈ sel) || sel.isEmpty

/-- Modelled from the spec's words (claim C2): the full pass condition of
spec section 4.3, to be compared with the source's `row_pass`. -/
def spec_pass (c : Criteria) (r : Row) : Bool :=
  (spec_unrestricted c.selected_roles || opt_mem r.role c.selected_roles) &&
  (spec_unrestricted c.selected_countries ||
    decide (r.country ∈ c.selected_countries)) &&
  (spec_unrestricted c.selected_companies ||
    opt_mem r.company c.selected_companies) &&
  volume_pass r.volume c.volume_threshold &&
  (decide (c.customer_choice = "All") ||
    (decide (r.customer = "Yes") == decide (c.customer_choice = "Yes")))

/-- One row of the geocode cache file (`place, Latitude, Longitude`); a
tombstone is an entry `(p, (none, none))`. -/
abbrev CacheEntry : Type := String × (Option ℚ × Option ℚ)

/-- app.py line 61, `cache_map.get(p, (np.nan, np.nan))`: the value of the
dict built by `dict(zip(place, zip(Latitude, Longitude)))` — on duplicate
places the last cache row wins — with the `(NaN, NaN)` default for a place
not in the cache. -/
def lookup_cache (cache : List CacheEntry) (p : String) : Option ℚ × Option ℚ :=
  match cache.reverse.find? (fun e => e.1 == p) with
  | some e => e.2
  | none => (none, none)

/-- app.py lines 62-63 (and 96-97): the Latitude and Longitude columns are
assigned from `cache_map` via `place_key`, overwriting whatever the columns
held before. -/
def attach_coords (cache : List CacheEntry) (df : List Row) : List Row :=
  df.map (fun r =>
    { r with
      lat := (lookup_cache cache r.place_key).1
      lon := (lookup_cache cache r.place_key).2 })

/-- pandas `drop_duplicates(subset=["place"], keep="last")` (app.py line 91):
keep, in order, each cache row whose place has no later occurrence. -/
def dedup_last : List CacheEntry → List CacheEntry
  | [] => []
  | e :: rest =>
      if rest.any (fun f => f.1 == e.1) then dedup_last rest
      else e :: dedup_last rest

/-- The result of one run of the `do_geocode` block, app.py lines 71-97:
the places sent to the external geocoder, the cache as saved, and the
dataframe with coordinates reattached. -/
structure PassResult where
  lookups : List String
  cache : List CacheEntry
  rows : List Row

/-- app.py lines 71-97, the geocode resolution pass.  `ext` is the external
geocoder (`geocode(p)`); `none` stands both for "no result" and for a raised
exception, which the `try/except` of lines 80-87 records the same way.
Line 76 selects `place_key` values of rows whose Latitude or Longitude is
missing (`unique()` is modelled by `dedup`; only the set of looked-up places
is used by the claims).  Each looked-up place is appended to the cache as a
coordinate pair or a tombstone, the cache is de-duplicated keeping the last
write, and lines 96-97 reattach coordinates from the updated cache. -/
def resolution_pass (ext : String → Option (ℚ × ℚ))
    (cache0 : List CacheEntry) (df0 : List Row) : PassResult :=
  let df := attach_coords cache0 df0
  let missing :=
    ((df.filter (fun r => r.lat.isNone || r.lon.isNone)).map Row.place_key).dedup
  let new_rows := missing.map (fun p =>
    match ext p with
    | some q => (p, (some q.1, some q.2))
    | none => (p, (none, none)))
  let cache1 := if new_rows.isEmpty then cache0 else dedup_last (cache0 ++ new_rows)
  { lookups := missing, cache := cache1, rows := attach_coords cache1 df }

/-- app.py line 100: `df.dropna(subset=["Latitude", "Longitude"])` — every
row still lacking a coordinate is removed before filtering, charting and the
table. -/
def drop_missing_coords (df : List Row) : List Row :=
  df.filter (fun r => r.lat.isSome && r.lon.isSome)

/-- The source table as parsed by `pd.read_excel`: its column names and its
rows (cell j of a row belongs to column j; a short row reads as missing
cells). -/
structure RawTable where
  columns : List String
  rows : List (List (Option String))
deriving DecidableEq

/-- app.py lines 15-17, `load_data`: `pd.read_excel("cocoa_supply_chain
(2).xlsx")` — the parsed table is returned as is, with no schema
validation.  The `Except` layer is the failure channel the spec calls
`SchemaError`; the source never uses it. -/
def load_data (t : RawTable) : Except String RawTable :=
  Except.ok t

/-- `df["name"]` column access on a raw table: pandas raises `KeyError` when
the column is absent; otherwise the column's cells.  This is how the Role
and Company columns are first read (app.py lines 111 and 132). -/
def get_column (t : RawTable) (c : String) : Except String (List (Option String)) :=
  if c ∈ t.columns then
    Except.ok (t.rows.map (fun row => row.getD (t.columns.findIdx (fun x => x == c)) none))
  else Except.error ("KeyError: " ++ c)

/-- What pandas `df.get(name, default)` returns (app.py lines 55-56): the
named column when present, else the scalar default itself. -/
inductive GetResult where
  | col (cells : List (Option String))
  | scalar (s : String)
deriving DecidableEq

/-- pandas `df.get(name, default)` with a string default, as at app.py
lines 55-56. -/
def df_get (t : RawTable) (c : String) (d : String) : GetResult :=
  if c ∈ t.columns then
    GetResult.col (t.rows.map (fun row => row.getD (t.columns.findIdx (fun x => x == c)) none))
  else GetResult.scalar d

/-- The `.astype(str)` call chained onto `df.get` at app.py lines 55-56: on
a Series it stringifies every cell (a missing cell becomes the literal
`nan`); on the scalar string that `df.get` returns when the column is
absent, Python raises `AttributeError` (a `str` has no `astype`). -/
def astype_str : GetResult → Except String (List String)
  | GetResult.col cells =>
      Except.ok (cells.map (fun o =>
        match o with
        | some s => s
        | none => "nan"))
  | GetResult.scalar _ => Except.error ("AttributeError: " ++ "astype")

/-- `Char.isDigit` over a whole character list. -/
def all_digits (l : List Char) : Bool := l.all Char.isDigit

/-- The natural number a digit string denotes. -/
def digits_val (l : List Char) : ℕ :=
  l.foldl (fun a c => a * 10 + (c.toNat - 48)) 0

/-- `pd.to_numeric(cell, errors='coerce')` on one text cell (app.py line
117): surrounding whitespace is tolerated, an optional sign is followed by
digits with at most one decimal point; anything else coerces to `NaN`
(`none`), never an error.  (Exponent forms are left out; no claim needs
them.) -/
def parse_num (s : String) : Option ℚ :=
  let t := trim_chars s.data
  let sl : ℚ × List Char :=
    match t with
    | '-' :: rest => (-1, rest)
    | '+' :: rest => (1, rest)
    | _ => (1, t)
  match sl.2.splitOn '.' with
  | [ip] =>
      if all_digits ip ∧ ip ≠ [] then some (sl.1 * digits_val ip) else none
  | [ip, fp] =>
      if all_digits ip ∧ all_digits fp ∧ ip ++ fp ≠ [] then
        some (sl.1 * ((digits_val ip : ℚ) + digits_val fp / 10 ^ fp.length))
      else none
  | _ => none

/-- Whether a text cell coerces to a number under `parse_num`. -/
def is_numeric_text (s : String) : Bool := (parse_num s).isSome

/-- app.py line 117:
`df["Volume (tons/year)"] = pd.to_numeric(df["Volume (tons/year)"], errors='coerce')`
— a column assignment: every row is kept, only its volume value is
replaced.  A missing cell stays missing. -/
def coerce_volume (df : List Row) : List Row :=
  df.map (fun r => { r with volume := r.volume_raw.bind parse_num })

/-- Descending order on grouped totals: `sort_values(ascending=False)`. -/
def vol_ge (a b : String × ℚ) : Prop := b.2 ≤ a.2

instance : DecidableRel vol_ge := fun a b => inferInstanceAs (Decidable (b.2 ≤ a.2))

instance : IsTotal (String × ℚ) vol_ge := ⟨fun a b => le_total b.2 a.2⟩

instance : IsTrans (String × ℚ) vol_ge := ⟨fun _ _ _ h1 h2 => le_trans h2 h1⟩

/-- The total volume of one group: pandas `GroupBy.sum()` skips `NaN`
(an all-`NaN` group sums to 0). -/
def group_total (records : List Row) (key : Row → Option String) (k : String) : ℚ :=
  ((records.filter (fun r => decide (key r = some k))).filterMap Row.volume).sum

/-- app.py lines 211-216 and 228-233:
`groupby(col)[vol].sum().sort_values(ascending=False)` — one group per
distinct non-missing key (pandas `groupby` drops `NaN` keys), its total the
`NaN`-skipping sum, sorted descending by total.  `sort_values` is modelled
by insertion sort; only sortedness and membership are claimed, not the
order of equal totals (pandas' quicksort is unstable there). -/
def group_sum (records : List Row) (key : Row → Option String) : List (String × ℚ) :=
  List.insertionSort vol_ge
    (((records.filterMap key).dedup).map (fun k => (k, group_total records key k)))

/-- app.py lines 211-217, the "Total Volume by Role" data: the role grouping,
top 5. -/
def volume_by_role (records : List Row) : List (String × ℚ) :=
  (group_sum records Row.role).take 5

/-- app.py lines 228-233, the "Volume Distribution by Country" data: the
country grouping (the Country column is never missing). -/
def volume_by_country (records : List Row) : List (String × ℚ) :=
  group_sum records (fun r => some r.country)

/-! Concrete inputs used by counterexamples and witnesses. -/

/-- Row "A" of the spec's section-8 scenario, fully normalized: volume
`50,000` parsed, coordinates resolved. -/
def accra_row : Row :=
  { company := some ("A"), role := some ("Trader"), country := "Ghana",
    city := "Accra", place_key := "Accra, Ghana", customer := "No",
    volume_raw := some ("50000"), volume := some 50000,
    lat := some 5, lon := some (-1) }

/-- Row "B" of the spec's section-8 scenario: volume cell is the
non-numeric text `bad`, so the numeric volume is absent. -/
def bad_volume_row : Row :=
  { company := some ("B"), role := some ("Trader"), country := "Ghana",
    city := "Accra", place_key := "Accra, Ghana", customer := "No",
    volume_raw := some ("bad"), volume := none,
    lat := some 5, lon := some (-1) }

/-- A row whose Role cell is missing (the source never fills missing
roles before filtering). -/
def null_role_row : Row :=
  { company := some ("A"), role := none, country := "Ghana",
    city := "Accra", place_key := "Accra, Ghana", customer := "No",
    volume_raw := none, volume := none,
    lat := some 5, lon := some (-1) }

/-- The spec's section-8 tombstone scenario row: place
`Nowhere, Nowhereland`, unresolved coordinates. -/
def nowhere_row : Row :=
  { company := some ("X"), role := some ("Trader"), country := "Nowhereland",
    city := "Nowhere", place_key := "Nowhere, Nowhereland", customer := "No",
    volume_raw := none, volume := none, lat := none, lon := none }

/-- A cache holding exactly one tombstone, for `Nowhere, Nowhereland`. -/
def tomb_cache : List CacheEntry := [("Nowhere, Nowhereland", (none, none))]

/-- An external geocoder whose every lookup fails (or raises). -/
def ext_fail : String → Option (ℚ × ℚ) := fun _ => none

/-- The fully unrestricted sidebar state: every multiselect at its default
`["All"]`, customer `All`, volume threshold 0. -/
def all_crit : Criteria :=
  { selected_roles := ["All"], selected_countries := ["All"],
    selected_companies := ["All"], customer_choice := "All",
    volume_threshold := 0 }

/-- A source table having none of the four required columns. -/
def no_required_table : RawTable :=
  { columns := ["Foo"], rows := [[some ("x")]] }

/-- A cache whose entry for place `K` carries the out-of-range latitude
200. -/
def oor_cache : List CacheEntry := [("K", (some 200, some 3))]

/-- A row whose source spreadsheet already carried the valid coordinates
(5, 6), keyed `K`. -/
def src_coord_row : Row :=
  { company := some ("C"), role := some ("Trader"), country := "Ghana",
    city := "K", place_key := "K", customer := "No",
    volume_raw := none, volume := none, lat := some 5, lon := some 6 }

/-! Helper lemmas shared by the claim theorems. -/

/-- The volume conjunct of the mask holds iff the volume is absent or at
least the threshold. -/
theorem volume_pass_iff (v : Option ℚ) (t : ℚ) :
    volume_pass v t = true ↔ (v = none ∨ ∃ x, v = some x ∧ t ≤ x) := by
  cases v <;> simp [volume_pass]

/-- The boolean mask of lines 146-151 as a conjunction of propositions. -/
theorem row_pass_iff (df : List Row) (c : Criteria) (r : Row) :
    row_pass df c r = true ↔
      (opt_mem r.role (effective c.selected_roles (available_roles df)) = true ∧
        r.country ∈ effective c.selected_countries (available_countries df) ∧
        opt_mem r.company (effective c.selected_companies (available_companies df)) = true ∧
        (r.volume = none ∨ ∃ x, r.volume = some x ∧ c.volume_threshold ≤ x)) := by
  unfold row_pass
  simp [Bool.and_eq_true, decide_eq_true_eq, volume_pass_iff, and_assoc]

/-- Membership in `filtered_df` unpacked: the mask of lines 146-151 plus the
Customer stage of lines 154-155. -/
theorem mem_filtered_df_iff (df : List Row) (c : Criteria) (r : Row) :
    r ∈ filtered_df df c ↔
      (r ∈ df ∧ row_pass df c r = true ∧
        (c.customer_choice = "All" ∨ r.customer = c.customer_choice)) := by
  unfold filtered_df
  by_cases h : c.customer_choice = "All"
  · simp [h, List.mem_filter]
  · simp [h, List.mem_filter]
    tauto

/-- When a list's `dropWhile p` removes nothing, its head fails `p`. -/
theorem dropWhile_head_false {p : Char → Bool} {l : List Char} {a : Char}
    {t : List Char} (h : l.dropWhile p = l) (he : l = a :: t) : p a = false := by
  subst he
  by_cases hp : p a = true
  · rw [List.dropWhile_cons, if_pos hp] at h
    have hle := (List.dropWhile_suffix (l := t) p).sublist.length_le
    rw [h] at hle
    simp at hle
  · simpa using hp

/-! Claim theorems. -/

/-- Claim C1 (code bug).  The source, run on a cache pre-populated with a
tombstone for `Nowhere, Nowhereland` and one record with that PlaceKey,
issues one external lookup — not the zero lookups the claim (and the
source's own comment, "Only geocode unique places not already cached")
requires: line 76 selects places by missing coordinates, and a tombstone
attaches missing coordinates.  The coordinates do stay absent after the
pass. -/
theorem tombstone_retried_lookup :
    (resolution_pass ext_fail tomb_cache [nowhere_row]).lookups =
        ["Nowhere, Nowhereland"] ∧
      (resolution_pass ext_fail tomb_cache [nowhere_row]).rows.map Row.lat = [none] ∧
      (resolution_pass ext_fail tomb_cache [nowhere_row]).rows.map Row.lon = [none] := by
  refine ⟨by decide, by decide, by decide⟩

/-- Claim C2, counterexample.  A record whose Role cell is missing satisfies
the spec's pass condition under the fully unrestricted criteria (every
"unrestricted" conjunct waived), yet `filtered_df` drops it:
`available_roles` holds only non-missing roles and `isin` never matches a
missing cell. -/
theorem filter_null_role_counterexample :
    spec_pass all_crit null_role_row = true ∧
      null_role_row ∈ [null_role_row] ∧
      filtered_df [null_role_row] all_crit = [] := by
  refine ⟨by decide, by decide, by decide⟩

/-- Claim C2 (amended).  `filtered_df` returns exactly the records
satisfying: role ∈ effective roles AND country ∈ effective countries AND
company ∈ effective companies AND (volume absent OR volume ≥ threshold) AND
(customer choice is All OR the record's customer equals the choice), where
the effective list of an unrestricted selection is the distinct non-missing
values of that column in the dataset — so a record with a missing role or
company is excluded even under an unrestricted selection, while any record
whose role is present always passes an unrestricted role conjunct. -/
theorem filtered_df_mem_iff (df : List Row) (c : Criteria) (r : Row) :
    (r ∈ filtered_df df c ↔
      (r ∈ df ∧
        opt_mem r.role (effective c.selected_roles (available_roles df)) = true ∧
        r.country ∈ effective c.selected_countries (available_countries df) ∧
        opt_mem r.company (effective c.selected_companies (available_companies df)) = true ∧
        (r.volume = none ∨ ∃ x, r.volume = some x ∧ c.volume_threshold ≤ x) ∧
        (c.customer_choice = "All" ∨ r.customer = c.customer_choice))) ∧
      (("All" ∈ c.selected_roles ∨ c.selected_roles = []) →
        ∀ x, r ∈ df → r.role = some x →
          opt_mem r.role (effective c.selected_roles (available_roles df)) = true) := by
  constructor
  · rw [mem_filtered_df_iff, row_pass_iff]
    tauto
  · intro hu x hr hx
    have hmem : x ∈ available_roles df := by
      unfold available_roles
      exact List.mem_dedup.mpr (List.mem_filterMap.mpr ⟨r, hr, hx⟩)
    unfold effective
    rw [if_pos hu, hx]
    simpa [opt_mem] using hmem

/-- Claim C3 (confirmed).  The volume conjunct accepts every record whose
volume is absent, for any threshold, and the membership of such a record in
`filtered_df` does not depend on the threshold at all. -/
theorem absent_volume_never_filtered (df : List Row) (c : Criteria) (r : Row)
    (t u : ℚ) (h : r.volume = none) :
    volume_pass r.volume t = true ∧
      (r ∈ filtered_df df { c with volume_threshold := t } ↔
        r ∈ filtered_df df { c with volume_threshold := u }) := by
  constructor
  · rw [h]; rfl
  · rw [mem_filtered_df_iff, mem_filtered_df_iff, row_pass_iff, row_pass_iff]
    simp [h]

/-- Witness for C3 at the spec's section-8 scenario: row B (volume text
`bad`, numeric volume absent) is kept under `minVolume = 10000` exactly as
under 0. -/
theorem absent_volume_never_filtered_witness :
    volume_pass bad_volume_row.volume 10000 = true ∧
      (bad_volume_row ∈
          filtered_df [bad_volume_row] { all_crit with volume_threshold := 10000 } ↔
        bad_volume_row ∈
          filtered_df [bad_volume_row] { all_crit with volume_threshold := 0 }) :=
  absent_volume_never_filtered [bad_volume_row] all_crit bad_volume_row 10000 0 rfl

/-- Claim C4, counterexample.  A table with none of the four required
columns loads successfully: `load_data` is a bare read with no schema
validation, so no `SchemaError` is ever reported. -/
theorem schema_unchecked_counterexample :
    ("Company" ∉ no_required_table.columns ∧ "Role" ∉ no_required_table.columns ∧
      "Country" ∉ no_required_table.columns ∧ "City" ∉ no_required_table.columns) ∧
      load_data no_required_table = Except.ok no_required_table := by
  exact ⟨by decide, rfl⟩

/-- Claim C4 (amended).  Loading never fails and performs no schema
validation: a table missing any of the four required columns loads
successfully and no `SchemaError` naming missing columns is ever reported.
A missing required column surfaces only later, at its first use, and not
uniformly: Role and Company are read by plain indexing and raise a
per-access `KeyError` (lines 111 and 132), while City and Country are read
through `df.get` with a scalar string default, so the chained `.astype(str)`
raises an `AttributeError` during normalization (lines 55-56).  In no case
is the failure per-row. -/
theorem load_never_schema_checks (t : RawTable) :
    load_data t = Except.ok t ∧
      ("Role" ∉ t.columns →
        get_column t ("Role") = Except.error ("KeyError: " ++ "Role")) ∧
      ("Company" ∉ t.columns →
        get_column t ("Company") = Except.error ("KeyError: " ++ "Company")) ∧
      ("City" ∉ t.columns →
        astype_str (df_get t ("City") ("")) =
          Except.error ("AttributeError: " ++ "astype")) ∧
      ("Country" ∉ t.columns →
        astype_str (df_get t ("Country") ("")) =
          Except.error ("AttributeError: " ++ "astype")) := by
  refine ⟨rfl, ?_, ?_, ?_, ?_⟩ <;> intro h <;>
    simp [get_column, df_get, astype_str, h]

/-- Witness for C4 at the concrete table having none of the four required
columns. -/
theorem load_never_schema_checks_witness :
    load_data no_required_table = Except.ok no_required_table ∧
      ("Role" ∉ no_required_table.columns →
        get_column no_required_table ("Role") =
          Except.error ("KeyError: " ++ "Role")) ∧
      ("Company" ∉ no_required_table.columns →
        get_column no_required_table ("Company") =
          Except.error ("KeyError: " ++ "Company")) ∧
      ("City" ∉ no_required_table.columns →
        astype_str (df_get no_required_table ("City") ("")) =
          Except.error ("AttributeError: " ++ "astype")) ∧
      ("Country" ∉ no_required_table.columns →
        astype_str (df_get no_required_table ("Country") ("")) =
          Except.error ("AttributeError: " ++ "astype")) :=
  load_never_schema_checks no_required_table

/-- Claim C5 (confirmed).  For each multiselect — roles, countries,
companies — an empty selection filters identically to the explicit `All`
selection. -/
theorem empty_multiselect_eq_all (df : List Row) (c : Criteria) :
    filtered_df df { c with selected_roles := [] } =
        filtered_df df { c with selected_roles := ["All"] } ∧
      filtered_df df { c with selected_countries := [] } =
        filtered_df df { c with selected_countries := ["All"] } ∧
      filtered_df df { c with selected_companies := [] } =
        filtered_df df { c with selected_companies := ["All"] } := by
  refine ⟨?_, ?_, ?_⟩
  · have hrp : row_pass df { c with selected_roles := [] } =
        row_pass df { c with selected_roles := ["All"] } := by
      funext r; simp [row_pass, effective]
    simp [filtered_df, hrp]
  · have hrp : row_pass df { c with selected_countries := [] } =
        row_pass df { c with selected_countries := ["All"] } := by
      funext r; simp [row_pass, effective]
    simp [filtered_df, hrp]
  · have hrp : row_pass df { c with selected_companies := [] } =
        row_pass df { c with selected_companies := ["All"] } := by
      funext r; simp [row_pass, effective]
    simp [filtered_df, hrp]

/-- Claim C6, counterexample.  The coordinate step neither coerces nor
clamps: a cached latitude of 200 (outside [-90, 90]) is attached as is, and
a row whose spreadsheet cells already held the valid numeric coordinates
(5, 6) gets them discarded (absent) when its place is not in the cache. -/
theorem coord_attach_counterexample :
    ((attach_coords oor_cache [src_coord_row]).map Row.lat = [some 200] ∧
      (attach_coords oor_cache [src_coord_row]).map Row.lon = [some 3] ∧
      ¬ ((200 : ℚ) ≤ 90)) ∧
      (attach_coords [] [src_coord_row]).map Row.lat = [none] ∧
      src_coord_row.lat = some 5 := by
  refine ⟨⟨by decide, by decide, by decide⟩, by decide, rfl⟩

/-- Claim C6 (amended).  The normalization of the coordinate columns
replaces them wholesale with the cache lookup on the row's `place_key`
(an uncached place or a tombstone gives absent coordinates, whatever the
source cells held); no numeric coercion and no range check or clamping
happens, and no row is dropped — every source row reappears with only its
coordinate fields replaced. -/
theorem attach_coords_cache_only (cache : List CacheEntry) (df : List Row) :
    (attach_coords cache df).length = df.length ∧
      (∀ r ∈ attach_coords cache df,
        r.lat = (lookup_cache cache r.place_key).1 ∧
        r.lon = (lookup_cache cache r.place_key).2) ∧
      (∀ r ∈ df,
        { r with lat := (lookup_cache cache r.place_key).1,
                 lon := (lookup_cache cache r.place_key).2 } ∈
          attach_coords cache df) := by
  refine ⟨by simp [attach_coords], ?_, ?_⟩
  · intro r hr
    rcases List.mem_map.mp hr with ⟨r0, _, he⟩
    subst he
    exact ⟨rfl, rfl⟩
  · intro r hr
    exact List.mem_map.mpr ⟨r, hr, rfl⟩

/-- Witness for C6's amended statement at a concrete cache and row. -/
theorem attach_coords_cache_only_witness :
    (attach_coords oor_cache [src_coord_row]).length = [src_coord_row].length :=
  (attach_coords_cache_only oor_cache [src_coord_row]).1

/-- Claim C8 (confirmed).  Coercing the volume column is a per-row column
assignment: the record set keeps its length, and a row whose volume cell is
non-numeric text reappears unchanged except that its numeric volume is
absent — no exception (the coercion is total) and no dropped row. -/
theorem non_numeric_volume_absent (df : List Row) (r : Row) (s : String)
    (h1 : r ∈ df) (h2 : r.volume_raw = some s) (h3 : is_numeric_text s = false) :
    (coerce_volume df).length = df.length ∧
      { r with volume := none } ∈ coerce_volume df := by
  constructor
  · simp [coerce_volume]
  · have hp : parse_num s = none := by
      cases hps : parse_num s with
      | none => rfl
      | some v => rw [is_numeric_text, hps] at h3; simp at h3
    unfold coerce_volume
    have he : ({ r with volume := none } : Row) =
        { r with volume := r.volume_raw.bind parse_num } := by
      rw [h2, Option.some_bind, hp]
    rw [he]
    exact List.mem_map_of_mem _ h1

/-- Witness for C8 at row B of the spec's section-8 scenario (volume cell
`bad`). -/
theorem non_numeric_volume_absent_witness :
    (bad_volume_row ∈ [bad_volume_row] ∧
      bad_volume_row.volume_raw = some ("bad") ∧
      is_numeric_text ("bad") = false) ∧
      ((coerce_volume [bad_volume_row]).length = [bad_volume_row].length ∧
        { bad_volume_row with volume := none } ∈ coerce_volume [bad_volume_row]) :=
  ⟨⟨by decide, rfl, by decide⟩,
    non_numeric_volume_absent [bad_volume_row] bad_volume_row ("bad")
      (by decide) rfl (by decide)⟩

/-- Claim C9 (confirmed).  Both aggregations instantiate `group_sum`, and
for every record set and grouping key: the output is sorted descending by
total; a pair `(k, t)` appears exactly when some record has key `k` and `t`
is the absent-skipping sum of that group's volumes; and a group all of whose
members have absent volume still appears, with total 0 — the same
convention in every aggregation since both share this definition. -/
theorem group_sum_sorted_complete (records : List Row) (key : Row → Option String) :
    List.Sorted vol_ge (group_sum records key) ∧
      (∀ k t, (k, t) ∈ group_sum records key ↔
        ((∃ r ∈ records, key r = some k) ∧ t = group_total records key k)) ∧
      (∀ k, (∃ r ∈ records, key r = some k) →
        (∀ r ∈ records, key r = some k → r.volume = none) →
        (k, 0) ∈ group_sum records key) := by
  have hmem : ∀ k t, (k, t) ∈ group_sum records key ↔
      ((∃ r ∈ records, key r = some k) ∧ t = group_total records key k) := by
    intro k t
    unfold group_sum
    rw [(List.perm_insertionSort vol_ge _).mem_iff]
    constructor
    · intro h
      rcases List.mem_map.mp h with ⟨a, ha, heq⟩
      have h1 : a = k := congrArg Prod.fst heq
      have h2 : group_total records key a = t := congrArg Prod.snd heq
      subst h1
      exact ⟨List.mem_filterMap.mp (List.mem_dedup.mp ha), h2.symm⟩
    · rintro ⟨⟨r, hr, hkr⟩, ht⟩
      subst ht
      exact List.mem_map.mpr
        ⟨k, List.mem_dedup.mpr (List.mem_filterMap.mpr ⟨r, hr, hkr⟩), rfl⟩
  refine ⟨?_, hmem, ?_⟩
  · unfold group_sum
    exact List.sorted_insertionSort vol_ge _
  · intro k hex hall
    have h0 : group_total records key k = 0 := by
      unfold group_total
      have hnil : (records.filter (fun r => decide (key r = some k))).filterMap
          Row.volume = [] := by
        rw [List.filterMap_eq_nil_iff]
        intro r hr
        exact hall r (List.mem_of_mem_filter hr)
          (of_decide_eq_true (List.mem_filter.mp hr).2)
      rw [hnil]
      rfl
    exact (hmem k 0).mpr ⟨hex, h0.symm⟩

/-- Witness for C9: the role aggregation at the spec's two-row scenario is
sorted descending. -/
theorem group_sum_sorted_complete_witness :
    List.Sorted vol_ge (group_sum [accra_row, bad_volume_row] Row.role) :=
  (group_sum_sorted_complete [accra_row, bad_volume_row] Row.role).1

/-- Claim C10 (confirmed).  After line 100, every record of the working set
— and hence every record the filter and the aggregations ever see — has
both coordinates present. -/
theorem coords_present_downstream (df : List Row) (c : Criteria) (r : Row)
    (h : r ∈ drop_missing_coords df ∨
      r ∈ filtered_df (drop_missing_coords df) c) :
    r.lat.isSome = true ∧ r.lon.isSome = true := by
  have hd : r ∈ drop_missing_coords df := by
    rcases h with h | h
    · exact h
    · exact ((mem_filtered_df_iff _ _ _).mp h).1
  have hf := List.mem_filter.mp hd
  simpa [Bool.and_eq_true] using hf.2

/-- Witness for C10 at a concrete resolved row. -/
theorem coords_present_downstream_witness :
    (accra_row ∈ drop_missing_coords [accra_row] ∨
      accra_row ∈ filtered_df (drop_missing_coords [accra_row]) all_crit) ∧
      (accra_row.lat.isSome = true ∧ accra_row.lon.isSome = true) :=
  ⟨Or.inl (by decide),
    coords_present_downstream [accra_row] all_crit accra_row (Or.inl (by decide))⟩

/-- Claim C7, counterexample.  A missing City with Country `Ghana` yields
the key `nan, Ghana` — `astype(str)` stringifies the missing cell to the
literal `nan` before concatenation — while the spec's derivation (missing
component omitted) yields `Ghana`. -/
theorem place_key_nan_counterexample :
    place_key_chars none (some (("Ghana").data)) = ("nan, Ghana").data ∧
      spec_place_key none (some (("Ghana").data)) = ("Ghana").data ∧
      ("nan, Ghana").data ≠ ("Ghana").data := by
  refine ⟨by decide, by decide, by decide⟩

/-- Claim C7 (amended).  For rows whose City and Country cells are present
— trimmed and comma-free, as real place names are — the derived key is
exactly the spec's: the trimmed `City, Country` with empty components
omitted and leading/trailing comma artifacts removed.  A missing City or
Country, however, is first stringified to the literal `nan` and then treated
as a present component, not omitted. -/
theorem place_key_matches_spec (c k : List Char)
    (hc1 : c.dropWhile is_ws = c) (hc2 : c.reverse.dropWhile is_ws = c.reverse)
    (hk1 : k.dropWhile is_ws = k) (hk2 : k.reverse.dropWhile is_ws = k.reverse)
    (hc3 : ',' ∉ c) (hk3 : ',' ∉ k) :
    place_key_chars (some c) (some k) = spec_place_key (some c) (some k) ∧
      ∀ q : Option (List Char),
        place_key_chars none q = place_key_chars (some ['n', 'a', 'n']) q := by
  refine ⟨?_, fun q => rfl⟩
  have htc : trim_chars c = c := by
    unfold trim_chars; rw [hc1, hc2, List.reverse_reverse]
  have htk : trim_chars k = k := by
    unfold trim_chars; rw [hk1, hk2, List.reverse_reverse]
  simp only [place_key_chars, spec_place_key, pandas_str, Option.getD_some]
  rw [htc, htk]
  by_cases hc : c = []
  · subst hc
    rw [if_pos rfl]
    have h1 : strip_lead_comma (([] : List Char) ++ [',', ' '] ++ k) =
        k.dropWhile is_ws := by
      unfold strip_lead_comma
      rw [List.nil_append, List.cons_append, List.headD_cons, if_pos rfl,
        List.tail_cons, List.cons_append, List.nil_append,
        List.dropWhile_cons_of_pos (by decide)]
    rw [h1, hk1]
    by_cases hk : k = []
    · subst hk; decide
    · obtain ⟨b, u, hbu⟩ :=
        List.exists_cons_of_ne_nil (mt List.reverse_eq_nil_iff.mp hk)
      have hbk : b ∈ k :=
        List.mem_reverse.mp (by rw [hbu]; exact List.mem_cons_self b u)
      have hbc : b ≠ ',' := fun hx => hk3 (hx ▸ hbk)
      unfold strip_trail_comma
      rw [hk2, hbu, List.headD_cons, if_neg hbc]
  · obtain ⟨a, t, hat⟩ := List.exists_cons_of_ne_nil hc
    have hac : a ∈ c := by rw [hat]; exact List.mem_cons_self a t
    have hak : a ≠ ',' := fun hx => hc3 (hx ▸ hac)
    have h1 : strip_lead_comma (c ++ [',', ' '] ++ k) = c ++ [',', ' '] ++ k := by
      unfold strip_lead_comma
      rw [hat, List.cons_append, List.cons_append, List.headD_cons, if_neg hak]
    rw [h1]
    by_cases hk : k = []
    · subst hk
      rw [if_neg hc, if_pos rfl, List.append_nil]
      unfold strip_trail_comma
      have hrev : (c ++ [',', ' ']).reverse = ' ' :: ',' :: c.reverse := by
        rw [List.reverse_append]; rfl
      rw [hrev, List.dropWhile_cons_of_pos (by decide),
        List.dropWhile_cons_of_neg (by decide), List.headD_cons, if_pos rfl,
        List.tail_cons, List.reverse_reverse]
    · rw [if_neg hc, if_neg hk]
      obtain ⟨b, u, hbu⟩ :=
        List.exists_cons_of_ne_nil (mt List.reverse_eq_nil_iff.mp hk)
      have hbw : is_ws b = false := dropWhile_head_false hk2 hbu
      have hbk : b ∈ k :=
        List.mem_reverse.mp (by rw [hbu]; exact List.mem_cons_self b u)
      have hbc : b ≠ ',' := fun hx => hk3 (hx ▸ hbk)
      unfold strip_trail_comma
      have hrev : (c ++ [',', ' '] ++ k).reverse =
          b :: (u ++ ' ' :: ',' :: c.reverse) := by
        rw [List.reverse_append, List.reverse_append, hbu]
        simp [List.cons_append, List.append_assoc]
      rw [hrev, List.dropWhile_cons_of_neg (by simp [hbw]), List.headD_cons,
        if_neg hbc]

/-- Witness for C7's amended statement at `Accra` and `Ghana`. -/
theorem place_key_matches_spec_witness :
    place_key_chars (some (("Accra").data)) (some (("Ghana").data)) =
        spec_place_key (some (("Accra").data)) (some (("Ghana").data)) ∧
      ∀ q : Option (List Char),
        place_key_chars none q = place_key_chars (some ['n', 'a', 'n']) q :=
  place_key_matches_spec (("Accra").data) (("Ghana").data) (by decide) (by decide)
    (by decide) (by decide) (by decide) (by decide)

end MapApp
